import Mathlib

/-!
Verification development for the drudder orchestration tool
(src/docker-services.py).  The definitions below are a shallow embedding of
the dependency-aware launch/stop orchestrator, the failed-launch tracker and
the crash-safe snapshot engine of that file.  Pure control flow is translated
line by line from the Python source; calls into external collaborators
(the container runtime, the btrfs/stat/df tools, the process table and the
descriptor-declared volume enumeration, which section 6 of the specification
declares out of scope) are modelled as fields of an explicit environment
record, and the on-disk artifacts the snapshot engine manipulates are
modelled as an explicit filesystem-state record.
-/

/-- Model of a Python runtime value as far as the embedded code returns one:
the source function Snapshots.do returns True, False, a filesystem-type
string (line 1635), or falls off the end returning None (line 1845). -/
inductive PyVal
  | none
  | bool (b : Bool)
  | str (s : String)
deriving DecidableEq

/-- Truthiness of a Python value, as used by the snapshot action at line 2181
(if not snapshots.do(): return_error = True). -/
def pyTruthy : PyVal → Bool
  | PyVal.none => false
  | PyVal.bool b => b
  | PyVal.str s => s ≠ ""

/-- Model of the Python exceptions the embedded code can raise: TypeError
from calling the None value (LaunchThreaded.stop, line 1344), NameError
from evaluating the bare name locate_binary, which is defined only as the
staticmethod SystemInfo.locate_binary and not as a module-level name
(SystemInfo.btrfs_path, line 320), and TypeError from passing None as the
program to subprocess.check_output (btrfs_tool_check, line 1522). -/
inductive PyErr
  | typeErrorNotCallable
  | nameErrorLocateBinary
  | typeErrorNoneProgram
deriving DecidableEq

/-- Calling the Python None value raises TypeError (NoneType is not
callable). -/
def callPyNone : Except PyErr PyVal := Except.error PyErr.typeErrorNotCallable

/-- Model of Python str.strip with no argument: leading and trailing
whitespace removed.  String.trim of Lean core is avoided only because its
byte-position internals do not reduce in the kernel; this definition is
extensionally the same operation on the character list. -/
def pyIsSpace (c : Char) : Bool :=
  (c == ' ') || (c == '\t') || (c == '\n') || (c == '\r') || (c == '\x0b') || (c == '\x0c')

/-- Python str.strip over the character list of the string. -/
def pyStrip (s : String) : String :=
  String.mk (((s.data.dropWhile pyIsSpace).reverse.dropWhile pyIsSpace).reverse)

/-!
Orchestrator data model.  A ServiceContainer value (docker-services.py line
479) is identified by (service name, normalized service path, container
name); equality of the embedded identifiers models ServiceContainer equality
(lines 500 to 513).  Dependencies (the dependencies property, lines 741 to
782) resolve each declared link either to a catalog container or to an
unresolved marker (ServiceDependency with service_name None), modelled as
an Option.
-/

/-- Abstract identity of one ServiceContainer value. -/
abbrev ContainerId := Nat

/-- Catalog of all known containers (Service.all flattened, line 822 and
line 2091) together with the resolved dependency lists of the dependencies
property: some d is a resolved dependency on catalog container d, none is a
ServiceDependency whose container property raises ValueError (line 468). -/
structure Catalog where
  containers : List ContainerId
  deps : ContainerId → List (Option ContainerId)

/-- Inner loop of the dependency-collection pass, docker-services.py lines
2072 to 2084: for each dependency of one target container, resolving an
unknown service exits the process (modelled as the error case), and a
resolved dependency container not yet in start_containers is appended and
the changed flag is set. -/
def foldDeps : List (Option ContainerId) → List ContainerId × Bool →
    Except Unit (List ContainerId × Bool)
  | [], acc => Except.ok acc
  | none :: _, _ => Except.error ()
  | some d :: rest, acc =>
      if d ∈ acc.1 then foldDeps rest acc
      else foldDeps rest (acc.1 ++ [d], true)

/-- One execution of the body of the while list_changed loop at lines 2069
to 2084: the iteration is over the ORIGINAL targets list (for container in
containers, line 2071), not over the growing start_containers list. -/
def startPassAux (deps : ContainerId → List (Option ContainerId)) :
    List ContainerId → List ContainerId × Bool → Except Unit (List ContainerId × Bool)
  | [], acc => Except.ok acc
  | c :: rest, acc =>
      match foldDeps (deps c) acc with
      | Except.error e => Except.error e
      | Except.ok acc2 => startPassAux deps rest acc2

/-- The while list_changed loop of lines 2068 to 2084, with explicit fuel.
Result ok none means the fuel ran out before the loop body reported no
change; ok (some s) means the loop exited normally with start_containers s;
error means sys.exit(1) on an unresolved dependency (line 2081). -/
def startLoop (deps : ContainerId → List (Option ContainerId))
    (targets : List ContainerId) : Nat → List ContainerId → Except Unit (Option (List ContainerId))
  | 0, _ => Except.ok none
  | fuel + 1, start =>
      match startPassAux deps targets (start, false) with
      | Except.error e => Except.error e
      | Except.ok (start2, changed) =>
          if changed then startLoop deps targets fuel start2
          else Except.ok (some start2)

/-- Innermost loop of the dependant-collection pass, lines 2095 to 2105:
for one catalog container c and one already-stopped container s, walk the
dependency list of c; a dependency that resolves to s, with c outside the
stop set and not yet recorded, appends c to restart_dependant_containers
and sets the changed flag.  An unresolved dependency is skipped (the
ValueError handler at line 2100 leaves dep_container as None, which
compares unequal to every container at line 501). -/
def scanInner (stop : List ContainerId) (c : ContainerId) (s : ContainerId) :
    List (Option ContainerId) → List ContainerId × Bool → List ContainerId × Bool
  | [], a => a
  | none :: rest, a => scanInner stop c s rest a
  | some d :: rest, a =>
      if d = s ∧ c ∉ stop ∧ c ∉ a.1 then scanInner stop c s rest (a.1 ++ [c], true)
      else scanInner stop c s rest a

/-- Loop over the snapshot of stop_containers ++ restart_dependant_containers
taken at line 2093 for one catalog container (the concatenation is a fresh
list, so appends during the iteration do not extend it). -/
def scanPairs (ds : List (Option ContainerId)) (stop : List ContainerId) (c : ContainerId) :
    List ContainerId → List ContainerId × Bool → List ContainerId × Bool
  | [], a => a
  | s :: rest, a => scanPairs ds stop c rest (scanInner stop c s ds a)

/-- Treatment of one catalog container inside the dependant-collection pass
(lines 2092 to 2105): the stopped-container snapshot is stop_containers
concatenated with the dependant list as it stands when this container is
reached. -/
def dependantStep (cat : Catalog) (stop : List ContainerId)
    (a : List ContainerId × Bool) (c : ContainerId) : List ContainerId × Bool :=
  scanPairs (cat.deps c) stop c (stop ++ a.1) a

/-- One execution of the body of the while list_changed loop at lines 2089
to 2105, iterating over every container of every known service. -/
def dependantPass (cat : Catalog) (stop : List ContainerId)
    (a : List ContainerId × Bool) : List ContainerId × Bool :=
  cat.containers.foldl (dependantStep cat stop) a

/-- The while list_changed loop of lines 2088 to 2105 with explicit fuel;
none means the fuel ran out before the loop body reported no change. -/
def dependantLoop (cat : Catalog) (stop : List ContainerId) :
    Nat → List ContainerId → Option (List ContainerId)
  | 0, _ => none
  | fuel + 1, dl =>
      match dependantPass cat stop (dl, false) with
      | (dl2, true) => dependantLoop cat stop fuel dl2
      | (dl2, false) => some dl2

/-- Observable side effects of the launch and stop operations: invocations
of docker-compose for one container. -/
inductive Effect
  | composeStop (c : ContainerId)
  | composeRm (c : ContainerId)
  | composeBuild (c : ContainerId)
  | composeUp (c : ContainerId)
  | launchScheduled (c : ContainerId)
deriving DecidableEq

/-- ServiceContainer.launch, lines 518 to 529: when the container is already
running the method returns immediately with no runtime invocation at all;
otherwise it runs docker-compose rm, build and up for the container.  The
embedding records the successful-invocation case; a non-zero exit of any of
the three calls raises CalledProcessError in the source, which no claim
under consideration depends on. -/
def containerLaunch (c : ContainerId) (running : Bool) : List Effect × Except PyErr Unit :=
  if running then ([], Except.ok ())
  else ([Effect.composeRm c, Effect.composeBuild c, Effect.composeUp c], Except.ok ())

/-- ServiceContainer.stop, lines 531 to 534, is declared with the property
decorator: the attribute access itself runs docker-compose stop for the
container and the accessed value is the Python None returned by the getter
body. -/
def stopPropertyAccess (c : ContainerId) : List Effect × PyVal :=
  ([Effect.composeStop c], PyVal.none)

/-- LaunchThreaded.stop, lines 1341 to 1344: container.stop() first performs
the property access (which already runs docker-compose stop) and then calls
the resulting None value, raising TypeError. -/
def launchThreadedStop (c : ContainerId) : List Effect × Except PyErr PyVal :=
  ((stopPropertyAccess c).1, callPyNone)

/-- Loop stopping a list of containers via LaunchThreaded.stop (lines 2116
to 2126); an uncaught exception aborts the loop and propagates. -/
def stopSequence : List ContainerId → List Effect × Except PyErr Unit
  | [] => ([], Except.ok ())
  | c :: rest =>
      match launchThreadedStop c with
      | (effs, Except.error e) => (effs, Except.error e)
      | (effs, Except.ok _) =>
          let r := stopSequence rest
          (effs ++ r.1, r.2)

/-- Execution part of the start/restart action, lines 2114 to 2136: stop
the stop set, stop the dependant set, then schedule a launch for every
member of start_containers ++ restart_dependant_containers. -/
def execRestart (stopCs dependants startCs : List ContainerId) :
    List Effect × Except PyErr Unit :=
  let s1 := stopSequence stopCs
  match s1.2 with
  | Except.error e => (s1.1, Except.error e)
  | Except.ok _ =>
      let s2 := stopSequence dependants
      match s2.2 with
      | Except.error e => (s1.1 ++ s2.1, Except.error e)
      | Except.ok _ =>
          (s1.1 ++ s2.1 ++ (startCs ++ dependants).map Effect.launchScheduled, Except.ok ())

/-- FailedLaunchTracker, lines 1189 to 1209: a set of containers guarded by
one exclusive lock.  The three public operations are add, membership test
and size; each runs entirely under the lock, so an operation sequence is
modelled as a sequence of atomic steps. -/
structure FailedLaunchTracker where
  contents : List ContainerId

/-- One atomic operation on the tracker. -/
inductive TrackerOp
  | add (c : ContainerId)
  | memberQuery (c : ContainerId)
  | sizeQuery
deriving DecidableEq

/-- State transition of one tracker operation: add inserts (set semantics),
the two queries do not modify the contents. -/
def trackerStep (t : FailedLaunchTracker) : TrackerOp → FailedLaunchTracker
  | TrackerOp.add c =>
      if c ∈ t.contents then t else { contents := t.contents ++ [c] }
  | TrackerOp.memberQuery _ => t
  | TrackerOp.sizeQuery => t

/-- Result of the membership test (the contains operation, lines 1200 to
1204). -/
def trackerContains (t : FailedLaunchTracker) (c : ContainerId) : Bool :=
  decide (c ∈ t.contents)

/-- Run a sequence of atomic tracker operations. -/
def trackerRun (t : FailedLaunchTracker) (ops : List TrackerOp) : FailedLaunchTracker :=
  ops.foldl trackerStep t

/-!
Snapshot engine.  Snapshots.do (docker-services.py lines 1573 to 1845) is a
sequential transaction over on-disk artifacts of one service directory.
The artifacts are modelled by SnapFS; answers of external collaborators
(process table, btrfs and df tools, descriptor volume enumeration, uuid and
clock) are modelled by SnapEnv.  The path checks at lines 1598, 1610 and
1630 build the livedata path from the service NAME (a working-directory
relative path) while the later steps use the absolute service path; the
embedding uses one livedata flag for both, which is exact whenever the
working directory is the services root. -/

/-- On-disk state the snapshot engine reads and mutates, one field per
artifact path of the service directory. -/
structure SnapFS where
  /-- Contents of .docker-services-snapshot.lock, none when absent. -/
  lockFile : Option String
  /-- Existence of the livedata directory. -/
  livedata : Bool
  /-- Whether livedata is currently a btrfs subvolume (is_btrfs_subvolume). -/
  livedataIsSubvol : Bool
  /-- Existence of .livedata-predeletion-renamed. -/
  renamedDir : Bool
  /-- Existence of .livedata-temporary-prevolume-copy. -/
  tempdataDir : Bool
  /-- Existence of .btrfs-livedata-snapshot. -/
  snapshotDir : Bool
  /-- Result of the stat check classifying .btrfs-livedata-snapshot as a
  subvolume artifact (_btrfs_subvolume_stat_check, line 401). -/
  snapshotDirIsSubvol : Bool
  /-- Existence of .btrfs-livedata-temporary-volume. -/
  tempvolumeDir : Bool
  /-- Entries of livedata-snapshots, none when the directory is absent. -/
  snapshotsDir : Option (List String)
deriving DecidableEq

/-- Environment answers consumed by the transaction code that follows the
btrfs_tool_check gate (the gate itself consumes nothing: it aborts
unconditionally, see btrfsToolCheck below). -/
structure SnapEnv where
  /-- Whether the process-table query (ps piped through grep at line 1499)
  counts a docker-services process other than the current one. -/
  otherSnapshotProcess : Bool
  /-- Modelled from the spec: the call get_service_volumes(directory,
  service, rw_only=True) at line 1591 names a helper that this repository
  does not define; per the specification the read-write mount enumeration
  is a descriptor-reader collaborator.  One Bool per read-write volume of
  the service, true when the volume path resolves under livedata (the
  relpath test of lines 1609 to 1622). -/
  rwVolumes : List Bool
  /-- Filesystem type reported by df for the livedata path (line 1630). -/
  fsType : String
  /-- Whether the service is currently running (line 1649). -/
  serviceRunning : Bool
  /-- Fresh random transaction token, str(uuid.uuid4()) at line 1661. -/
  token : String
  /-- Lock contents written by a racing invocation during the 0.5 second
  settle sleep at line 1667, none when nobody raced. -/
  raceWrite : Option String
  /-- Whether a restored .livedata-predeletion-renamed directory is itself
  a subvolume once moved back to livedata (line 1686). -/
  renamedIsSubvol : Bool
  /-- Whether the top-level listing comparison of the conversion copy
  succeeds (lines 1762 to 1771). -/
  copyMatches : Bool
  /-- Timestamp base name YYYYMMDD-HHMMSS built at lines 1810 to 1827. -/
  timeBase : String

/-- Terminal outcome of one call of Snapshots.do: a Python return value, a
sys.exit, or an uncaught exception propagating out of the function. -/
inductive SnapResult
  | ret (v : PyVal)
  | exit (code : Nat)
  | raise (e : PyErr)
deriving DecidableEq

/-- Exit-status interpretation of the snapshot action caller at lines 2180
to 2182: if not snapshots.do(): the snapshot is reported failed.  An
uncaught exception never reaches the truthiness test at all; it propagates
past the caller and kills the process with a traceback and a non-zero
status, so it is not a reported success either. -/
def snapshotActionSucceeds : SnapResult → Bool
  | SnapResult.ret v => pyTruthy v
  | SnapResult.exit _ => false
  | SnapResult.raise _ => false

/-- Snapshots.check_running_snapshot_transaction, lines 1496 to 1511: with
a lock file present, a second live docker-services process means the
transaction is still in progress (result true, nothing touched); otherwise
the lock is stale and is removed before returning false. -/
def checkRunningSnapshotTransaction (env : SnapEnv) (fs : SnapFS) : Bool × SnapFS :=
  match fs.lockFile with
  | some _ =>
      if env.otherSnapshotProcess then (true, fs)
      else (false, { fs with lockFile := none })
  | none => (false, fs)

/-- Two-digit collision suffix used at lines 1831 to 1834. -/
def suffix2 (i : Nat) : String :=
  if i < 10 then "0" ++ toString i else toString i

/-- Collision loop of lines 1828 to 1835: starting from the base name with
suffix 00, increment the suffix while the candidate already exists. -/
def pickNameFrom (existing : List String) (base : String) :
    Nat → Nat → String → String
  | 0, _, name => name
  | fuel + 1, i, name =>
      if name ∈ existing then pickNameFrom existing base fuel (i + 1) (base ++ suffix2 i)
      else name

/-- Materialized snapshot directory name chosen against the existing
entries of livedata-snapshots. -/
def pickSnapshotName (existing : List String) (base : String) : String :=
  pickNameFrom existing base (existing.length + 2) 1 (base ++ "00")

/-- SNAPSHOT and MATERIALIZE steps, lines 1795 to 1845: create
livedata-snapshots when absent, take the read-only internal snapshot at the
fixed temporary path, copy it to the chosen timestamped directory, delete
the internal snapshot, print the completion message and fall off the end of
the function, returning the Python None.  No statement of this suffix of
Snapshots.do removes the lock file. -/
def doSnapshotPhase (env : SnapEnv) (fs : SnapFS) : SnapResult × SnapFS :=
  let existing := fs.snapshotsDir.getD []
  let fs1 := { fs with snapshotsDir := some existing,
                       snapshotDir := true, snapshotDirIsSubvol := true }
  let name := pickSnapshotName existing env.timeBase
  let fs2 := { fs1 with snapshotsDir := some (existing ++ [name]),
                        snapshotDir := false, snapshotDirIsSubvol := false }
  (SnapResult.ret PyVal.none, fs2)

/-- ENSURE_SUBVOLUME step, lines 1739 to 1793: when livedata is not yet a
subvolume, create the temporary subvolume, copy the tree into the temporary
holding copy and move its entries over; a top-level listing mismatch aborts
with False, leaving both temporary directories in place; otherwise the
rename swap installs the subvolume as livedata and removes the renamed
aside copy, while the emptied holding-copy directory itself is left behind.
A failure of the external subvolume-create call (line 1748) removes the
lock and re-raises; that external-failure path is not modelled. -/
def doConvertPhase (env : SnapEnv) (fs : SnapFS) : SnapResult × SnapFS :=
  if fs.livedataIsSubvol then doSnapshotPhase env fs
  else
    let fs1 := { fs with tempvolumeDir := true, tempdataDir := true }
    if env.copyMatches = false then (SnapResult.ret (PyVal.bool false), fs1)
    else
      doSnapshotPhase env
        { fs1 with tempvolumeDir := false, livedataIsSubvol := true, renamedDir := false }

/-- RECOVER steps (b), (c) and (d), lines 1697 to 1737: delete a leftover
pre-volume copy; delete a leftover internal snapshot only when the stat
check confirms it is a subvolume artifact, otherwise abort with False; and
delete a leftover temporary subvolume. -/
def doRecoverRest (env : SnapEnv) (fs : SnapFS) : SnapResult × SnapFS :=
  let fs1 := if fs.tempdataDir then { fs with tempdataDir := false } else fs
  if fs1.snapshotDir then
    if fs1.snapshotDirIsSubvol then
      doConvertPhase env
        (let fs2 := { fs1 with snapshotDir := false, snapshotDirIsSubvol := false }
         if fs2.tempvolumeDir then { fs2 with tempvolumeDir := false } else fs2)
    else (SnapResult.ret (PyVal.bool false), fs1)
  else
    doConvertPhase env
      (if fs1.tempvolumeDir then { fs1 with tempvolumeDir := false } else fs1)

/-- RECOVER step (a), lines 1679 to 1695: a pre-deletion renamed directory
with no livedata directory is moved back into place and the transaction
continues; with both directories present the process exits with status 1,
deleting neither. -/
def doRecoverPhase (env : SnapEnv) (fs : SnapFS) : SnapResult × SnapFS :=
  if fs.renamedDir then
    if fs.livedata then (SnapResult.exit 1, fs)
    else
      doRecoverRest env
        { fs with renamedDir := false, livedata := true,
                  livedataIsSubvol := env.renamedIsSubvol }
  else doRecoverRest env fs

/-- ACQUIRE_LOCK and VERIFY_LOCK, lines 1660 to 1677: write the fresh
token, sleep half a second (during which a racing invocation may overwrite
the file), re-read and strip the contents, and fail with False on a token
mismatch; on a match continue with the recovery steps. -/
def doAcquirePhase (env : SnapEnv) (fs : SnapFS) : SnapResult × SnapFS :=
  let fs1 := { fs with lockFile := some env.token }
  let fs2 := match env.raceWrite with
    | some other => { fs1 with lockFile := some other }
    | none => fs1
  let contents := fs2.lockFile.getD ""
  if pyStrip contents ≠ env.token then (SnapResult.ret (PyVal.bool false), fs2)
  else doRecoverPhase env fs2

/-- Volume and precondition checks of lines 1587 to 1655: no read-write
volume at all returns True (nothing to do); read-write volumes without a
livedata directory return False; no read-write volume under livedata
returns True (empty snapshot, skipped); a non-btrfs filesystem returns the
filesystem-type string itself (line 1635); a running service whose livedata
is not yet a subvolume returns False; otherwise the lock acquisition
begins. -/
def doVolumePhase (env : SnapEnv) (fs : SnapFS) : SnapResult × SnapFS :=
  if env.rwVolumes.length = 0 then (SnapResult.ret (PyVal.bool true), fs)
  else if fs.livedata = false then (SnapResult.ret (PyVal.bool false), fs)
  else if env.rwVolumes.all (fun insideLivedata => !insideLivedata) then
    (SnapResult.ret (PyVal.bool true), fs)
  else if env.fsType ≠ "btrfs" then (SnapResult.ret (PyVal.str env.fsType), fs)
  else if env.serviceRunning && !fs.livedataIsSubvol then
    (SnapResult.ret (PyVal.bool false), fs)
  else doAcquirePhase env fs

/-- SystemInfo.btrfs_path, lines 315 to 323: the first statement of the
body evaluates the bare name locate_binary, which exists only as the
staticmethod SystemInfo.locate_binary (line 203) and is not a module-level
name, so every call raises NameError before the binary is even looked
up. -/
def btrfsPath : Except PyErr (Option String) :=
  Except.error PyErr.nameErrorLocateBinary

/-- Snapshots.btrfs_tool_check, lines 1513 to 1534.  No execution of this
check falls through to its caller: the first statement calls
SystemInfo.btrfs_path, which raises NameError (line 320).  Were that
lookup repaired, the check would still never pass: line 1516 exits the
process exactly when the returned path is truthy, that is when the tool IS
found (the condition is inverted against its own not-found message), and
in the remaining case line 1522 invokes check_output with None as the
program, raising TypeError.  The ok case of the result type would be a
falling-through execution, which no branch produces. -/
def btrfsToolCheck : Except SnapResult Unit :=
  match btrfsPath with
  | Except.error e => Except.error (SnapResult.raise e)
  | Except.ok (some _) => Except.error (SnapResult.exit 1)
  | Except.ok none => Except.error (SnapResult.raise PyErr.typeErrorNoneProgram)

/-- Snapshots.do, lines 1573 to 1845: the btrfs_tool_check call at line
1576 comes first and its abort (in the source an unconditional one)
propagates with the state untouched; then the in-progress check and the
phases above in source order.  Everything after the gate is dead code in
the source, embedded here because the claims under review reason about
it. -/
def snapshotsDo (env : SnapEnv) (fs : SnapFS) : SnapResult × SnapFS :=
  match btrfsToolCheck with
  | Except.error r => (r, fs)
  | Except.ok _ =>
      let pr := checkRunningSnapshotTransaction env fs
      if pr.1 then (SnapResult.ret (PyVal.bool false), pr.2)
      else doVolumePhase env pr.2

/-!
Concrete inputs used for evaluations and witnesses.
-/

/-- Catalog with a two-step dependency chain: container 0 depends on 1 and
container 1 depends on 2. -/
def chainCat : Catalog :=
  { containers := [0, 1, 2],
    deps := fun c => if c = 0 then [some 1] else if c = 1 then [some 2] else [] }

/-- Catalog with two containers where container 1 declares a dependency on
container 0. -/
def pairCat : Catalog :=
  { containers := [0, 1],
    deps := fun c => if c = 1 then [some 0] else [] }

/-- Service-directory state with a clean, already converted livedata
subvolume and no leftover artifacts. -/
def baseFS : SnapFS :=
  { lockFile := none, livedata := true, livedataIsSubvol := true,
    renamedDir := false, tempdataDir := false, snapshotDir := false,
    snapshotDirIsSubvol := false, tempvolumeDir := false, snapshotsDir := none }

/-- Environment in which no second process is alive, nobody races, and
every post-gate probe answers favourably. -/
def baseEnv : SnapEnv :=
  { otherSnapshotProcess := false, rwVolumes := [true],
    fsType := "btrfs", serviceRunning := false, token := "tok1",
    raceWrite := none, renamedIsSubvol := false, copyMatches := true,
    timeBase := "20260101-000000" }

/-- Claim C1.  No snapshot transaction ever reaches MATERIALIZE: for every
environment and every state, Snapshots.do aborts inside the
btrfs_tool_check gate with the NameError raised by SystemInfo.btrfs_path,
leaving the state untouched (first conjunct), so the population of
transactions the claim quantifies over is empty.  Independently, the
MATERIALIZE suffix of the function (lines 1795 to 1845) contains no lock
removal at all: for every environment and state it leaves the lock file
exactly as it found it and returns the Python None, which the caller
treats as failure (second conjunct).  So no execution removes the lock
file after a successful MATERIALIZE, contradicting the claim twice
over. -/
theorem claim_C1_lock_never_removed :
    (∀ (env : SnapEnv) (fs : SnapFS),
      snapshotsDo env fs = (SnapResult.raise PyErr.nameErrorLocateBinary, fs)) ∧
    (∀ (env : SnapEnv) (fs : SnapFS),
      (doSnapshotPhase env fs).2.lockFile = fs.lockFile ∧
      (doSnapshotPhase env fs).1 = SnapResult.ret PyVal.none ∧
      snapshotActionSucceeds (doSnapshotPhase env fs).1 = false) :=
  ⟨fun _ _ => rfl, fun _ _ => ⟨rfl, rfl, rfl⟩⟩

/-- Claim C2.  Evaluating the start-set loop on the chain catalog
(0 depends on 1, 1 depends on 2) with target set containing only 0: the
loop stabilizes at the set containing 0 and 1 (shown with the exact fuel at
which the body reports no change, and again with generous fuel).  Container
1 is a member of the computed start set and 2 is a declared dependency
target of 1, yet 2 is not in the start set: the loop at lines 2069 to 2084
iterates over the original targets list only, so the computed set is not
closed under the dependency relation, contradicting the claim. -/
theorem claim_C2_start_set_misses_transitive_deps :
    startLoop chainCat.deps [0] 2 [0] = Except.ok (some [0, 1]) ∧
    startLoop chainCat.deps [0] 99 [0] = Except.ok (some [0, 1]) ∧
    (1 : ContainerId) ∈ [0, 1] ∧ some 2 ∈ chainCat.deps 1 ∧
    (2 : ContainerId) ∉ ([0, 1] : List ContainerId) :=
  ⟨rfl, rfl, by decide, by decide, by decide⟩

/-- Claim C3.  On the pair catalog (container 1 depends on container 0),
restarting target 0 correctly plans container 1 into the dependant set,
but executing the restart raises TypeError inside the very first
LaunchThreaded.stop call (the stop property access runs docker-compose
stop for container 0 and the returned None is then called), so container 1
is neither stopped nor scheduled for relaunch, contradicting the claim. -/
theorem claim_C3_restart_crashes_before_dependants :
    dependantLoop pairCat [0] 3 [] = some [1] ∧
    startLoop pairCat.deps [0] 2 [0] = Except.ok (some [0]) ∧
    execRestart [0] [1] [0] =
      ([Effect.composeStop 0], Except.error PyErr.typeErrorNotCallable) ∧
    Effect.composeStop 1 ∉ [Effect.composeStop 0] ∧
    Effect.launchScheduled 1 ∉ [Effect.composeStop 0] :=
  ⟨rfl, rfl, rfl, by decide, by decide⟩

/-- Claim C5.  Launching an already running container is a no-op success
(ServiceContainer.launch returns immediately, no runtime invocation), but
the stop operation is broken for every container: LaunchThreaded.stop
performs the compose stop through the property access and then raises
TypeError by calling the None it received, so stopping an already stopped
container is not a no-op success, contradicting the claim. -/
theorem claim_C5_stop_raises_type_error :
    containerLaunch 0 true = ([], Except.ok ()) ∧
    launchThreadedStop 0 =
      ([Effect.composeStop 0], Except.error PyErr.typeErrorNotCallable) :=
  ⟨rfl, rfl⟩

/-- Claim C4.  A snapshot request for a service with zero read-write
volumes does not terminate with the SKIPPED success: like every snapshot
request it aborts inside the btrfs_tool_check gate with NameError, which
is reported as failure (the state is indeed left unchanged and no lock is
created, but by the crash, not by the skip path).  The volume check the
claim describes sits at lines 1587 to 1595 and would return the True skip
with the state unchanged (third conjunct), yet its call site is
unreachable: line 1576 precedes it on every path. -/
theorem claim_C4_skip_unreachable :
    snapshotsDo { baseEnv with rwVolumes := [] } baseFS =
      (SnapResult.raise PyErr.nameErrorLocateBinary, baseFS) ∧
    snapshotActionSucceeds (snapshotsDo { baseEnv with rwVolumes := [] } baseFS).1 = false ∧
    doVolumePhase { baseEnv with rwVolumes := [] } baseFS =
      (SnapResult.ret (PyVal.bool true), baseFS) :=
  ⟨rfl, rfl, rfl⟩

/-- Claim C6.  A transaction reaching the recovery step with the
pre-deletion renamed directory present: with no livedata directory the
renamed directory is moved back into place (livedata restored, renamed
gone) and the transaction continues with the remaining recovery steps;
with both directories present the process exits with status 1 and the
state is returned unchanged, so neither directory is deleted. -/
theorem claim_C6_predeletion_renamed_recovery (env : SnapEnv) (fs : SnapFS)
    (hren : fs.renamedDir = true) :
    (fs.livedata = false →
      doRecoverPhase env fs =
        doRecoverRest env
          { fs with renamedDir := false, livedata := true,
                    livedataIsSubvol := env.renamedIsSubvol }) ∧
    (fs.livedata = true →
      doRecoverPhase env fs = (SnapResult.exit 1, fs) ∧
      fs.renamedDir = true ∧ fs.livedata = true) := by
  refine ⟨fun h => ?_, fun h => ⟨?_, hren, h⟩⟩ <;> simp [doRecoverPhase, hren, h]

/-- Witness for claim C6: with both livedata and the renamed directory
present the engine exits with status 1 and deletes neither. -/
theorem claim_C6_witness :
    doRecoverPhase baseEnv { baseFS with renamedDir := true } =
      (SnapResult.exit 1, { baseFS with renamedDir := true }) ∧
    ({ baseFS with renamedDir := true } : SnapFS).renamedDir = true ∧
    ({ baseFS with renamedDir := true } : SnapFS).livedata = true :=
  (claim_C6_predeletion_renamed_recovery baseEnv { baseFS with renamedDir := true } rfl).2 rfl

/-- Claim C7.  The lock-liveness protocol never executes: with a lock file
present (held or stale alike) every snapshot request aborts inside the
btrfs_tool_check gate with NameError before
check_running_snapshot_transaction is called at line 1579, so a stale lock
is never deleted, the transaction never proceeds, and a held lock never
yields the in-progress failure (first half: the request raises with the
state, lock file included, untouched).  The helper itself, lines 1496 to
1511, does implement exactly the claimed branching: a second live
docker-services process yields true with the state untouched, otherwise
the stale lock is removed (second half); only its call site is
unreachable. -/
theorem claim_C7_lock_check_unreachable (env : SnapEnv) (fs : SnapFS) (tok : String)
    (hlock : fs.lockFile = some tok) :
    (snapshotsDo env fs = (SnapResult.raise PyErr.nameErrorLocateBinary, fs) ∧
      (snapshotsDo env fs).2.lockFile = some tok) ∧
    ((env.otherSnapshotProcess = true →
        checkRunningSnapshotTransaction env fs = (true, fs)) ∧
      (env.otherSnapshotProcess = false →
        checkRunningSnapshotTransaction env fs = (false, { fs with lockFile := none }))) := by
  refine ⟨⟨rfl, hlock⟩, fun hp => ?_, fun hp => ?_⟩ <;>
    simp [checkRunningSnapshotTransaction, hlock, hp]

/-- Witness for claim C7: a stale lock, with no other process alive,
survives the snapshot request untouched because the request dies at the
gate before the stale-lock removal can run. -/
theorem claim_C7_witness :
    snapshotsDo baseEnv { baseFS with lockFile := some "stale" } =
      (SnapResult.raise PyErr.nameErrorLocateBinary,
       { baseFS with lockFile := some "stale" }) ∧
    (snapshotsDo baseEnv { baseFS with lockFile := some "stale" }).2.lockFile = some "stale" :=
  (claim_C7_lock_check_unreachable baseEnv { baseFS with lockFile := some "stale" }
    "stale" rfl).1

/-- Claim C8.  After the lock acquisition writes the fresh token, when a
racing invocation overwrote the lock during the settle sleep with contents
whose stripped form differs from the token, the verify step returns False
and the transaction performs no recovery, conversion, snapshot or
materialize step: the resulting state differs from the input state only in
the lock file, which holds the contents the racer wrote. -/
theorem claim_C8_verify_token_mismatch (env : SnapEnv) (fs : SnapFS) (other : String)
    (hrace : env.raceWrite = some other) (hmis : pyStrip other ≠ env.token) :
    doAcquirePhase env fs =
      (SnapResult.ret (PyVal.bool false), { fs with lockFile := some other }) := by
  simp [doAcquirePhase, hrace, hmis]

/-- Witness for claim C8 at a concrete raced transaction. -/
theorem claim_C8_witness :
    doAcquirePhase { baseEnv with raceWrite := some "intruder" } baseFS =
      (SnapResult.ret (PyVal.bool false), { baseFS with lockFile := some "intruder" }) :=
  claim_C8_verify_token_mismatch { baseEnv with raceWrite := some "intruder" } baseFS
    "intruder" rfl (by decide)

/-!
Helper lemmas for the failed-launch tracker.
-/

/-- One tracker operation never removes elements: the previous contents
list is a sublist of the new one. -/
lemma trackerStep_sublist (t : FailedLaunchTracker) (op : TrackerOp) :
    List.Sublist t.contents (trackerStep t op).contents := by
  cases op with
  | add c =>
      by_cases h : c ∈ t.contents
      · simp [trackerStep, h]
      · simp only [trackerStep, if_neg h]
        exact List.sublist_append_left _ _
  | memberQuery c => simp [trackerStep]
  | sizeQuery => simp [trackerStep]

/-- Running any operation sequence never removes elements. -/
lemma trackerRun_sublist (ops : List TrackerOp) :
    ∀ t : FailedLaunchTracker, List.Sublist t.contents (trackerRun t ops).contents := by
  induction ops with
  | nil => intro t; simp [trackerRun]
  | cons op rest ih =>
      intro t
      have h2 := ih (trackerStep t op)
      simpa [trackerRun] using (trackerStep_sublist t op).trans h2

/-- Claim C10.  The failed-launch tracker only ever grows: over any
sequence of its atomic operations (add, membership test, size, each one a
critical section of the single exclusive lock) the contents list of the
starting state is a sublist of the final contents, and once an add of a
container has executed, every later membership test for it answers true. -/
theorem claim_C10_tracker_only_grows :
    (∀ (t : FailedLaunchTracker) (ops : List TrackerOp),
      List.Sublist t.contents (trackerRun t ops).contents) ∧
    (∀ (t : FailedLaunchTracker) (pre post : List TrackerOp) (c : ContainerId),
      trackerContains (trackerRun t (pre ++ TrackerOp.add c :: post)) c = true) := by
  constructor
  · intro t ops
    exact trackerRun_sublist ops t
  · intro t pre post c
    have hsplit : trackerRun t (pre ++ TrackerOp.add c :: post) =
        trackerRun (trackerStep (trackerRun t pre) (TrackerOp.add c)) post := by
      simp [trackerRun, List.foldl_append]
    have hmem : c ∈ (trackerStep (trackerRun t pre) (TrackerOp.add c)).contents := by
      by_cases h : c ∈ (trackerRun t pre).contents <;> simp [trackerStep, h]
    have hfinal := (trackerRun_sublist post _).subset hmem
    simp only [trackerContains, hsplit, decide_eq_true_eq]
    exact hfinal

/-!
Helper lemmas for the start-set loop (claim C9, start-set side).
-/

/-- Structural facts about one inner dependency walk that returns
normally: the accumulated list only grows, stays duplicate-free, ends up
containing every resolved dependency of the walked list, and the walked
list contained no unresolved dependency. -/
lemma foldDeps_ok_facts :
    ∀ (ds : List (Option ContainerId)) (acc r : List ContainerId × Bool),
      foldDeps ds acc = Except.ok r →
      List.Sublist acc.1 r.1 ∧ (acc.1.Nodup → r.1.Nodup) ∧
      (∀ d : ContainerId, some d ∈ ds → d ∈ r.1) ∧
      ((none : Option ContainerId) ∉ ds) := by
  intro ds
  induction ds with
  | nil =>
      intro acc r h
      simp only [foldDeps, Except.ok.injEq] at h
      subst h
      simp
  | cons hd tl ih =>
      intro acc r h
      cases hd with
      | none => simp [foldDeps] at h
      | some d =>
          by_cases hm : d ∈ acc.1
          · simp only [foldDeps, if_pos hm] at h
            obtain ⟨h1, h2, h3, h4⟩ := ih acc r h
            refine ⟨h1, h2, ?_, by simpa using h4⟩
            intro d2 hd2
            rcases List.mem_cons.mp hd2 with he | ht
            · obtain rfl : d2 = d := by simpa using he
              exact h1.subset hm
            · exact h3 d2 ht
          · simp only [foldDeps, if_neg hm] at h
            obtain ⟨h1, h2, h3, h4⟩ := ih (acc.1 ++ [d], true) r h
            have hstep : List.Sublist acc.1 (acc.1 ++ [d]) := List.sublist_append_left _ _
            refine ⟨hstep.trans h1, ?_, ?_, by simpa using h4⟩
            · intro hn
              apply h2
              simpa [List.nodup_append] using ⟨hn, hm⟩
            · intro d2 hd2
              rcases List.mem_cons.mp hd2 with he | ht
              · obtain rfl : d2 = d := by simpa using he
                exact h1.subset (by simp)
              · exact h3 d2 ht

/-- A dependency walk over a list whose resolved targets are all already
accumulated, and which has no unresolved entry, changes nothing. -/
lemma foldDeps_saturated :
    ∀ (ds : List (Option ContainerId)) (acc : List ContainerId × Bool),
      (∀ d : ContainerId, some d ∈ ds → d ∈ acc.1) →
      ((none : Option ContainerId) ∉ ds) →
      foldDeps ds acc = Except.ok acc := by
  intro ds
  induction ds with
  | nil => intro acc _ _; rfl
  | cons hd tl ih =>
      intro acc hsat hnone
      cases hd with
      | none => simp at hnone
      | some d =>
          have hm : d ∈ acc.1 := hsat d (by simp)
          simp only [foldDeps, if_pos hm]
          exact ih acc (fun d2 h2 => hsat d2 (List.mem_cons_of_mem _ h2)) (by simpa using hnone)

/-- Structural facts about one whole pass of the start-set loop body that
returns normally. -/
lemma startPassAux_ok_facts (deps : ContainerId → List (Option ContainerId)) :
    ∀ (ts : List ContainerId) (acc r : List ContainerId × Bool),
      startPassAux deps ts acc = Except.ok r →
      List.Sublist acc.1 r.1 ∧ (acc.1.Nodup → r.1.Nodup) ∧
      (∀ c ∈ ts, ∀ d : ContainerId, some d ∈ deps c → d ∈ r.1) ∧
      (∀ c ∈ ts, (none : Option ContainerId) ∉ deps c) := by
  intro ts
  induction ts with
  | nil =>
      intro acc r h
      simp only [startPassAux, Except.ok.injEq] at h
      subst h
      simp
  | cons c rest ih =>
      intro acc r h
      simp only [startPassAux] at h
      cases hfd : foldDeps (deps c) acc with
      | error e => rw [hfd] at h; cases h
      | ok acc2 =>
          rw [hfd] at h
          obtain ⟨f1, f2, f3, f4⟩ := foldDeps_ok_facts (deps c) acc acc2 hfd
          obtain ⟨g1, g2, g3, g4⟩ := ih acc2 r h
          refine ⟨f1.trans g1, fun hn => g2 (f2 hn), ?_, ?_⟩
          · intro c2 hc2 d hd
            rcases List.mem_cons.mp hc2 with he | ht
            · subst he
              exact g1.subset (f3 d hd)
            · exact g3 c2 ht d hd
          · intro c2 hc2
            rcases List.mem_cons.mp hc2 with he | ht
            · subst he
              exact f4
            · exact g4 c2 ht

/-- A pass of the start-set loop body over targets whose resolved
dependencies are all already accumulated changes nothing. -/
lemma startPassAux_saturated (deps : ContainerId → List (Option ContainerId)) :
    ∀ (ts : List ContainerId) (acc : List ContainerId × Bool),
      (∀ c ∈ ts, (none : Option ContainerId) ∉ deps c) →
      (∀ c ∈ ts, ∀ d : ContainerId, some d ∈ deps c → d ∈ acc.1) →
      startPassAux deps ts acc = Except.ok acc := by
  intro ts
  induction ts with
  | nil => intro acc _ _; rfl
  | cons c rest ih =>
      intro acc hnone hsat
      have hfd := foldDeps_saturated (deps c) acc (hsat c (by simp)) (hnone c (by simp))
      simp only [startPassAux, hfd]
      exact ih acc (fun c2 h2 => hnone c2 (List.mem_cons_of_mem _ h2))
        (fun c2 h2 => hsat c2 (List.mem_cons_of_mem _ h2))

/-- The start-set loop settles within two passes: one pass saturates the
start set because only the fixed targets list is ever walked, so the second
pass reports no change (or the first pass exits on an unresolved
dependency). -/
lemma startLoop_two_settles (deps : ContainerId → List (Option ContainerId))
    (targets : List ContainerId) (h1 : targets.Nodup) :
    startLoop deps targets 2 targets = Except.error () ∨
    ∃ s, startLoop deps targets 2 targets = Except.ok (some s) ∧ s.Nodup := by
  cases hp : startPassAux deps targets (targets, false) with
  | error e =>
      left
      simp [startLoop, hp]
  | ok p =>
      obtain ⟨s1, changed⟩ := p
      obtain ⟨f1, f2, f3, f4⟩ := startPassAux_ok_facts deps targets (targets, false) (s1, changed) hp
      right
      refine ⟨s1, ?_, f2 h1⟩
      cases changed with
      | false => simp [startLoop, hp]
      | true =>
          have hsat := startPassAux_saturated deps targets (s1, false) f4
            (fun c hc d hd => f3 c hc d hd)
          simp [startLoop, hp, hsat]

/-!
Helper lemmas for the dependant-set loop (claim C9, dependant-set side).
-/

/-- The innermost dependant walk does nothing once the candidate container
is already recorded. -/
lemma scanInner_absorbed (stop : List ContainerId) (c s : ContainerId) :
    ∀ (ds : List (Option ContainerId)) (a : List ContainerId × Bool),
      c ∈ a.1 → scanInner stop c s ds a = a := by
  intro ds
  induction ds with
  | nil => intro a _; rfl
  | cons hd rest ih =>
      intro a hc
      cases hd with
      | none =>
          simp only [scanInner]
          exact ih a hc
      | some d =>
          have hcond : ¬(d = s ∧ c ∉ stop ∧ c ∉ a.1) := fun hx => hx.2.2 hc
          simp only [scanInner, if_neg hcond]
          exact ih a hc

/-- The innermost dependant walk either changes nothing or appends exactly
the candidate container once, setting the changed flag. -/
lemma scanInner_dichotomy (stop : List ContainerId) (c s : ContainerId) :
    ∀ (ds : List (Option ContainerId)) (a : List ContainerId × Bool),
      scanInner stop c s ds a = a ∨
        (c ∉ a.1 ∧ scanInner stop c s ds a = (a.1 ++ [c], true)) := by
  intro ds
  induction ds with
  | nil => intro a; left; rfl
  | cons hd rest ih =>
      intro a
      cases hd with
      | none =>
          simp only [scanInner]
          exact ih a
      | some d =>
          by_cases hcond : d = s ∧ c ∉ stop ∧ c ∉ a.1
          · right
            refine ⟨hcond.2.2, ?_⟩
            simp only [scanInner, if_pos hcond]
            exact scanInner_absorbed stop c s rest _ (by simp)
          · simp only [scanInner, if_neg hcond]
            exact ih a

/-- The per-container stopped-snapshot walk does nothing once the
candidate container is already recorded. -/
lemma scanPairs_absorbed (ds : List (Option ContainerId)) (stop : List ContainerId)
    (c : ContainerId) :
    ∀ (snap : List ContainerId) (a : List ContainerId × Bool),
      c ∈ a.1 → scanPairs ds stop c snap a = a := by
  intro snap
  induction snap with
  | nil => intro a _; rfl
  | cons s rest ih =>
      intro a hc
      simp only [scanPairs, scanInner_absorbed stop c s ds a hc]
      exact ih a hc

/-- The per-container stopped-snapshot walk either changes nothing or
appends exactly the candidate container once, setting the changed flag. -/
lemma scanPairs_dichotomy (ds : List (Option ContainerId)) (stop : List ContainerId)
    (c : ContainerId) :
    ∀ (snap : List ContainerId) (a : List ContainerId × Bool),
      scanPairs ds stop c snap a = a ∨
        (c ∉ a.1 ∧ scanPairs ds stop c snap a = (a.1 ++ [c], true)) := by
  intro snap
  induction snap with
  | nil => intro a; left; rfl
  | cons s rest ih =>
      intro a
      rcases scanInner_dichotomy stop c s ds a with h | ⟨hc, h⟩
      · simp only [scanPairs, h]
        exact ih a
      · right
        refine ⟨hc, ?_⟩
        simp only [scanPairs, h]
        exact scanPairs_absorbed ds stop c rest _ (by simp)

/-- One catalog container of the dependant pass either changes nothing or
appends exactly itself once, setting the changed flag. -/
lemma dependantStep_dichotomy (cat : Catalog) (stop : List ContainerId)
    (a : List ContainerId × Bool) (c : ContainerId) :
    dependantStep cat stop a c = a ∨
      (c ∉ a.1 ∧ dependantStep cat stop a c = (a.1 ++ [c], true)) :=
  scanPairs_dichotomy (cat.deps c) stop c (stop ++ a.1) a

/-- The changed flag is never cleared during one dependant pass. -/
lemma depFold_flag_mono (cat : Catalog) (stop : List ContainerId) :
    ∀ (cs : List ContainerId) (a : List ContainerId × Bool), a.2 = true →
      (cs.foldl (dependantStep cat stop) a).2 = true := by
  intro cs
  induction cs with
  | nil => intro a h; simpa using h
  | cons c rest ih =>
      intro a h
      rcases dependantStep_dichotomy cat stop a c with hd | ⟨_, hd⟩
      · rw [List.foldl_cons, hd]
        exact ih a h
      · rw [List.foldl_cons, hd]
        exact ih _ rfl

/-- Structural facts about one dependant pass: the dependant list only
grows, every new element is a catalog container, duplicate-freeness is
preserved, a pass that raises the changed flag strictly lengthens the
list, and a pass that reports no change leaves the state untouched. -/
lemma depFold_facts (cat : Catalog) (stop : List ContainerId) :
    ∀ (cs : List ContainerId) (a : List ContainerId × Bool),
      List.Sublist a.1 (cs.foldl (dependantStep cat stop) a).1 ∧
      (∀ x, x ∈ (cs.foldl (dependantStep cat stop) a).1 → x ∈ a.1 ∨ x ∈ cs) ∧
      (a.1.Nodup → (cs.foldl (dependantStep cat stop) a).1.Nodup) ∧
      ((cs.foldl (dependantStep cat stop) a).2 = true → a.2 = true ∨
        a.1.length < (cs.foldl (dependantStep cat stop) a).1.length) ∧
      ((cs.foldl (dependantStep cat stop) a).2 = false →
        cs.foldl (dependantStep cat stop) a = a) := by
  intro cs
  induction cs with
  | nil =>
      intro a
      refine ⟨List.Sublist.refl _, ?_, ?_, ?_, ?_⟩ <;> simp
  | cons c rest ih =>
      intro a
      rcases dependantStep_dichotomy cat stop a c with hd | ⟨hc, hd⟩
      · obtain ⟨i1, i2, i3, i4, i5⟩ := ih a
        rw [List.foldl_cons, hd]
        refine ⟨i1, ?_, i3, i4, i5⟩
        intro x hx
        rcases i2 x hx with h | h
        · exact Or.inl h
        · exact Or.inr (List.mem_cons_of_mem _ h)
      · obtain ⟨i1, i2, i3, i4, i5⟩ := ih (a.1 ++ [c], true)
        rw [List.foldl_cons, hd]
        have hstep : List.Sublist a.1 (a.1 ++ [c]) := List.sublist_append_left _ _
        refine ⟨hstep.trans i1, ?_, ?_, ?_, ?_⟩
        · intro x hx
          rcases i2 x hx with h | h
          · rcases List.mem_append.mp h with h2 | h2
            · exact Or.inl h2
            · refine Or.inr ?_
              obtain rfl : x = c := by simpa using h2
              exact List.mem_cons_self _ _
          · exact Or.inr (List.mem_cons_of_mem _ h)
        · intro hn
          apply i3
          simpa [List.nodup_append] using ⟨hn, hc⟩
        · intro _
          refine Or.inr ?_
          have hle := i1.length_le
          simp only [List.length_append, List.length_singleton] at hle
          omega
        · intro hfalse
          have := depFold_flag_mono cat stop rest (a.1 ++ [c], true) rfl
          rw [this] at hfalse
          cases hfalse

/-- Bridge between the dependant pass and its defining fold. -/
lemma dependantPass_eq_foldl (cat : Catalog) (stop : List ContainerId)
    (a : List ContainerId × Bool) :
    dependantPass cat stop a = cat.containers.foldl (dependantStep cat stop) a := rfl

/-- The dependant loop settles with any fuel exceeding the number of
containers still addable: every changing pass strictly grows a
duplicate-free list of catalog containers, which is bounded by the catalog
size. -/
lemma dependantLoop_settles (cat : Catalog) (stop : List ContainerId) :
    ∀ (fuel : Nat) (dl : List ContainerId), dl.Nodup →
      (∀ x ∈ dl, x ∈ cat.containers) →
      cat.containers.length - dl.length < fuel →
      ∃ r, dependantLoop cat stop fuel dl = some r ∧ r.Nodup := by
  intro fuel
  induction fuel with
  | zero =>
      intro dl _ _ h
      omega
  | succ f ih =>
      intro dl hnd hsub hlt
      obtain ⟨i1, i2, i3, i4, i5⟩ := depFold_facts cat stop cat.containers (dl, false)
      rw [← dependantPass_eq_foldl] at i1 i2 i3 i4 i5
      rcases hp : dependantPass cat stop (dl, false) with ⟨dl2, ch⟩
      rw [hp] at i1 i2 i3 i4 i5
      cases ch with
      | false =>
          have heq : dl2 = dl := congrArg Prod.fst (i5 rfl)
          refine ⟨dl2, ?_, heq ▸ hnd⟩
          simp [dependantLoop, hp]
      | true =>
          have hlen : dl.length < dl2.length := by
            rcases i4 rfl with h | h
            · cases h
            · exact h
          have hnd2 : dl2.Nodup := i3 hnd
          have hsub2 : ∀ x ∈ dl2, x ∈ cat.containers := by
            intro x hx
            rcases i2 x hx with h | h
            · exact hsub x h
            · exact h
          have hbound : dl2.length ≤ cat.containers.length := by
            have hcard : dl2.toFinset.card = dl2.length := List.toFinset_card_of_nodup hnd2
            have hss : dl2.toFinset ⊆ cat.containers.toFinset := by
              intro x hx
              rw [List.mem_toFinset] at hx ⊢
              exact hsub2 x hx
            calc dl2.length = dl2.toFinset.card := hcard.symm
              _ ≤ cat.containers.toFinset.card := Finset.card_le_card hss
              _ ≤ cat.containers.length := List.toFinset_card_le _
          obtain ⟨out, hout, houtnd⟩ := ih dl2 hnd2 hsub2 (by omega)
          refine ⟨out, ?_, houtnd⟩
          simp [dependantLoop, hp, hout]

/-- Claim C9.  For every catalog (cyclic dependency graphs included) and
every duplicate-free target list, both fixed-point expansions of the
start/restart planner terminate: the start-set loop settles within two
passes (or exits on an unresolved dependency) and yields a duplicate-free
start set, and the dependant-set loop settles within catalog-size plus one
passes and yields a duplicate-free dependant set. -/
theorem claim_C9_planning_terminates (cat : Catalog) (targets stop : List ContainerId)
    (h1 : targets.Nodup) :
    (startLoop cat.deps targets 2 targets = Except.error () ∨
      ∃ s, startLoop cat.deps targets 2 targets = Except.ok (some s) ∧ s.Nodup) ∧
    (∃ dl, dependantLoop cat stop (cat.containers.length + 1) [] = some dl ∧ dl.Nodup) := by
  constructor
  · exact startLoop_two_settles cat.deps targets h1
  · exact dependantLoop_settles cat stop (cat.containers.length + 1) []
      List.nodup_nil (by simp) (by simp)

/-- Witness for claim C9 on a concrete catalog that contains a dependency
edge. -/
theorem claim_C9_witness :
    (startLoop pairCat.deps [0] 2 [0] = Except.error () ∨
      ∃ s, startLoop pairCat.deps [0] 2 [0] = Except.ok (some s) ∧ s.Nodup) ∧
    (∃ dl, dependantLoop pairCat [0] (pairCat.containers.length + 1) [] = some dl ∧ dl.Nodup) :=
  claim_C9_planning_terminates pairCat [0] [0] (by decide)
